import Mathlib

/-!
Shallow embedding of the `simple-agent` repository's chained generation
pipeline (`src/agent_tool.py`), resilient model client
(`src/api_llm_responder.py`) and response extraction, together with proofs
of the specification's claims about them.

Python machine-level details are modelled as follows: strings are Lean
`String`s over their character lists; `str.find`/`str.rfind` return `-1`
on absence as in Python; Python slicing semantics (negative indices,
clamping) are reproduced by `pySlice`; `json.loads` is modelled by a
fuel-indexed recursive-descent JSON parser `jsonParse` returning
`Option Json`; exceptions are modelled by `Except`/`Option` results; the
mutable `AndroidAgent` object is modelled by explicit state passing.
-/

namespace SimpleAgent

/-! ## Python string primitives -/

/-- Python whitespace for `str.strip()`: the characters `c` with
`c.isspace()` in CPython — tab through carriage return (U+0009–U+000D),
the information separators U+001C–U+001F, space, and the Unicode
whitespace U+0085, U+00A0, U+1680, U+2000–U+200A, U+2028, U+2029,
U+202F, U+205F and U+3000. -/
def pyIsSpace (c : Char) : Bool :=
  (0x09 ≤ c.toNat && c.toNat ≤ 0x0d) ||
  (0x1c ≤ c.toNat && c.toNat ≤ 0x1f) ||
  c.toNat = 0x20 || c.toNat = 0x85 || c.toNat = 0xa0 ||
  c.toNat = 0x1680 ||
  (0x2000 ≤ c.toNat && c.toNat ≤ 0x200a) ||
  c.toNat = 0x2028 || c.toNat = 0x2029 || c.toNat = 0x202f ||
  c.toNat = 0x205f || c.toNat = 0x3000

/-- Python `str.strip()`: drop leading and trailing whitespace. -/
def pyStrip (s : String) : String :=
  ⟨((s.data.dropWhile pyIsSpace).reverse.dropWhile pyIsSpace).reverse⟩

/-- Python `str.replace("\n", " ")`: the pattern is a single character, so
this is a character-wise map. -/
def pyReplaceNl (s : String) : String :=
  ⟨s.data.map (fun c => if c = '\n' then ' ' else c)⟩

/-- Python `s[:n]` for a nonnegative `n`. -/
def pyTake (n : Nat) (s : String) : String :=
  ⟨s.data.take n⟩

/-- Python `str.find(c)`: index of the first occurrence, `-1` if absent. -/
def pyFind (s : String) (c : Char) : Int :=
  match s.data.findIdx? (· = c) with
  | some i => (i : Int)
  | none => -1

/-- Python `str.rfind(c)`: index of the last occurrence, `-1` if absent. -/
def pyRFind (s : String) (c : Char) : Int :=
  match s.data.reverse.findIdx? (· = c) with
  | some i => (s.data.length : Int) - 1 - (i : Int)
  | none => -1

/-- Python slice `s[a:b]` with Python's negative-index and clamping
semantics. -/
def pySlice (s : String) (a b : Int) : String :=
  let n : Int := s.data.length
  let a' : Nat := (if a < 0 then max 0 (a + n) else min a n).toNat
  let b' : Nat := (if b < 0 then max 0 (b + n) else min b n).toNat
  ⟨(s.data.drop a').take (b' - a')⟩

/-! ## JSON values and a model of `json.loads` -/

/-- JSON values as produced by `json.loads`.  Numbers keep sign, integer
digits value, fractional digits and exponent, enough to decide Python
truthiness. -/
inductive Json where
  | null : Json
  | bool (b : Bool) : Json
  | num (neg : Bool) (ip : Nat) (frac : List Nat) (exp : Int) : Json
  | str (s : String) : Json
  | arr (xs : List Json) : Json
  | obj (fields : List (String × Json)) : Json

/-- Python truthiness of a JSON value (`if not content: ...`). -/
def jsonTruthy : Json → Bool
  | .null => false
  | .bool b => b
  | .num _ ip frac _ => ip ≠ 0 || frac.any (· ≠ 0)
  | .str s => s ≠ ""
  | .arr xs => !xs.isEmpty
  | .obj fs => !fs.isEmpty

/-- Python `dict.get k`: with duplicate JSON keys the later entry wins,
as in `json.loads`. -/
def objGet (fields : List (String × Json)) (k : String) : Option Json :=
  fields.reverse.lookup k

/-- JSON insignificant whitespace. -/
def jsonSkipWs (cs : List Char) : List Char :=
  cs.dropWhile (fun c => c = ' ' || c = '\t' || c = '\n' || c = '\r')

/-- Decode a 4-hex-digit `\uXXXX` escape. -/
def hexVal (c : Char) : Option Nat :=
  if '0' ≤ c ∧ c ≤ '9' then some (c.toNat - '0'.toNat)
  else if 'a' ≤ c ∧ c ≤ 'f' then some (c.toNat - 'a'.toNat + 10)
  else if 'A' ≤ c ∧ c ≤ 'F' then some (c.toNat - 'A'.toNat + 10)
  else none

/-- Parse the body of a JSON string literal (the opening quote already
consumed), with fuel. -/
def parseStrBody : Nat → List Char → List Char → Option (String × List Char)
  | 0, _, _ => none
  | _ + 1, acc, '"' :: rest => some (⟨acc.reverse⟩, rest)
  | fuel + 1, acc, '\\' :: e :: rest =>
    match e with
    | '"' => parseStrBody fuel ('"' :: acc) rest
    | '\\' => parseStrBody fuel ('\\' :: acc) rest
    | '/' => parseStrBody fuel ('/' :: acc) rest
    | 'b' => parseStrBody fuel ('\x08' :: acc) rest
    | 'f' => parseStrBody fuel ('\x0c' :: acc) rest
    | 'n' => parseStrBody fuel ('\n' :: acc) rest
    | 'r' => parseStrBody fuel ('\r' :: acc) rest
    | 't' => parseStrBody fuel ('\t' :: acc) rest
    | 'u' =>
      match rest with
      | h1 :: h2 :: h3 :: h4 :: rest' =>
        match hexVal h1, hexVal h2, hexVal h3, hexVal h4 with
        | some a, some b, some c, some d =>
          let n := ((a * 16 + b) * 16 + c) * 16 + d
          if h : n.isValidChar then
            parseStrBody fuel (Char.ofNatAux n h :: acc) rest'
          else none
        | _, _, _, _ => none
      | _ => none
    | _ => none
  | fuel + 1, acc, c :: rest =>
    if c.toNat < 0x20 then none else parseStrBody fuel (c :: acc) rest
  | _, _, [] => none

/-- Parse a JSON number after an optional leading minus sign (strict JSON
grammar: no leading zeros, fraction and exponent digits required). -/
def parseNumTail (neg : Bool) (cs : List Char) : Option (Json × List Char) :=
  let intDigits := cs.takeWhile Char.isDigit
  let rest0 := cs.dropWhile Char.isDigit
  if intDigits.isEmpty then none
  else if intDigits.length > 1 ∧ intDigits.head? = some '0' then none
  else
    let ip : Nat := intDigits.foldl (fun a c => a * 10 + (c.toNat - '0'.toNat)) 0
    let (frac, rest1) :=
      match rest0 with
      | '.' :: r =>
        (r.takeWhile Char.isDigit |>.map (fun c => c.toNat - '0'.toNat),
         r.dropWhile Char.isDigit)
      | _ => ([], rest0)
    match rest0 with
    | '.' :: r => if (r.takeWhile Char.isDigit).isEmpty then none else
      parseExpTail neg ip frac rest1
    | _ => parseExpTail neg ip frac rest1
where
  /-- Parse the optional exponent part and assemble the number. -/
  parseExpTail (neg : Bool) (ip : Nat) (frac : List Nat) :
      List Char → Option (Json × List Char)
  | 'e' :: r => parseExpDigits neg ip frac r
  | 'E' :: r => parseExpDigits neg ip frac r
  | r => some (.num neg ip frac 0, r)
  /-- Parse exponent sign and digits. -/
  parseExpDigits (neg : Bool) (ip : Nat) (frac : List Nat) (r : List Char) :
      Option (Json × List Char) :=
    let (eneg, r') := match r with
      | '-' :: r' => (true, r')
      | '+' :: r' => (false, r')
      | _ => (false, r)
    let eds := r'.takeWhile Char.isDigit
    if eds.isEmpty then none
    else
      let ev : Nat := eds.foldl (fun a c => a * 10 + (c.toNat - '0'.toNat)) 0
      some (.num neg ip frac (if eneg then -(ev : Int) else (ev : Int)),
            r'.dropWhile Char.isDigit)

mutual

/-- Parse one JSON value, with fuel. -/
def parseValue : Nat → List Char → Option (Json × List Char)
  | 0, _ => none
  | fuel + 1, cs =>
    match jsonSkipWs cs with
    | '{' :: rest => parseObjFields fuel rest []
    | '[' :: rest => parseArrElems fuel rest []
    | '"' :: rest =>
      (parseStrBody (rest.length + 1) [] rest).map (fun p => (.str p.1, p.2))
    | 't' :: 'r' :: 'u' :: 'e' :: rest => some (.bool true, rest)
    | 'f' :: 'a' :: 'l' :: 's' :: 'e' :: rest => some (.bool false, rest)
    | 'n' :: 'u' :: 'l' :: 'l' :: rest => some (.null, rest)
    | '-' :: rest => parseNumTail true rest
    | c :: rest =>
      if c.isDigit then parseNumTail false (c :: rest) else none
    | [] => none

/-- Parse the fields of a JSON object (the `{` already consumed). -/
def parseObjFields : Nat → List Char → List (String × Json) →
    Option (Json × List Char)
  | 0, _, _ => none
  | fuel + 1, cs, acc =>
    match jsonSkipWs cs with
    | '}' :: rest =>
      if acc.isEmpty then some (.obj [], rest) else none
    | '"' :: rest =>
      match parseStrBody (rest.length + 1) [] rest with
      | none => none
      | some (key, rest1) =>
        match jsonSkipWs rest1 with
        | ':' :: rest2 =>
          match parseValue fuel rest2 with
          | none => none
          | some (v, rest3) =>
            match jsonSkipWs rest3 with
            | ',' :: rest4 => parseObjMore fuel rest4 (acc ++ [(key, v)])
            | '}' :: rest4 => some (.obj (acc ++ [(key, v)]), rest4)
            | _ => none
        | _ => none
    | _ => none

/-- After a comma in an object: a key is required. -/
def parseObjMore : Nat → List Char → List (String × Json) →
    Option (Json × List Char)
  | 0, _, _ => none
  | fuel + 1, cs, acc =>
    match jsonSkipWs cs with
    | '"' :: rest =>
      match parseStrBody (rest.length + 1) [] rest with
      | none => none
      | some (key, rest1) =>
        match jsonSkipWs rest1 with
        | ':' :: rest2 =>
          match parseValue fuel rest2 with
          | none => none
          | some (v, rest3) =>
            match jsonSkipWs rest3 with
            | ',' :: rest4 => parseObjMore fuel rest4 (acc ++ [(key, v)])
            | '}' :: rest4 => some (.obj (acc ++ [(key, v)]), rest4)
            | _ => none
        | _ => none
    | _ => none

/-- Parse the elements of a JSON array (the `[` already consumed). -/
def parseArrElems : Nat → List Char → List Json → Option (Json × List Char)
  | 0, _, _ => none
  | fuel + 1, cs, acc =>
    match jsonSkipWs cs with
    | ']' :: rest =>
      if acc.isEmpty then some (.arr [], rest) else none
    | _ =>
      match parseValue fuel cs with
      | none => none
      | some (v, rest1) =>
        match jsonSkipWs rest1 with
        | ',' :: rest2 => parseArrMore fuel rest2 (acc ++ [v])
        | ']' :: rest2 => some (.arr (acc ++ [v]), rest2)
        | _ => none

/-- After a comma in an array: a value is required. -/
def parseArrMore : Nat → List Char → List Json → Option (Json × List Char)
  | 0, _, _ => none
  | fuel + 1, cs, acc =>
    match parseValue fuel cs with
    | none => none
    | some (v, rest1) =>
      match jsonSkipWs rest1 with
      | ',' :: rest2 => parseArrMore fuel rest2 (acc ++ [v])
      | ']' :: rest2 => some (.arr (acc ++ [v]), rest2)
      | _ => none

end

/-- Model of `json.loads`: parse a complete JSON document; trailing
whitespace is allowed, any other trailing input is an error. -/
def jsonParse (s : String) : Option Json :=
  match parseValue (s.data.length + 1) s.data with
  | some (v, rest) => if (jsonSkipWs rest).isEmpty then some v else none
  | none => none

/-! ## Response extraction (`AndroidAgent._write_from_response`, parsing part) -/

/-- Result of the best-effort JSON extraction: the content to write and
whether the structured path was taken. -/
structure Extracted where
  content : Json
  was_structured : Bool

/-- The slice `response[response.find('{') : response.rfind('}') + 1]`
that `_write_from_response` hands to `json.loads`. -/
def extractSlice (response : String) : String :=
  pySlice response (pyFind response '{') (pyRFind response '}' + 1)

/-- The parsing part of `AndroidAgent._write_from_response`: find the
first `{` and last `}`, parse the slice as JSON, take a truthy `content`
field; any failure (`except Exception`) falls back to the raw response. -/
def extract (response : String) : Extracted :=
  match jsonParse (extractSlice response) with
  | some (.obj fields) =>
    let content := (objGet fields "content").getD (.str "")
    if jsonTruthy content then ⟨content, true⟩
    else ⟨.str response, false⟩
  | some _ => ⟨.str response, false⟩
  | none => ⟨.str response, false⟩

/-- The `filename` field of the parsed structured response.  The source
parses the same object but never reads this field; it is defined here to
state that it cannot influence the write target. -/
def extractFilename (response : String) : Option Json :=
  match jsonParse (extractSlice response) with
  | some (.obj fields) => objGet fields "filename"
  | _ => none

/-! ## File system model -/

/-- A file system: a map from path to file content. -/
def FS : Type := String → Option String

/-- Write one file. -/
def fsWrite (fs : FS) (path content : String) : FS :=
  fun k => if k = path then some content else fs k

/-- `filepath.write_text(content)`: requires the content to be a string
(`write_text` raises `TypeError` on any other value, outside the
`try`/`except` of `_write_from_response`). -/
def writeText (fs : FS) (path : String) (content : Json) :
    Except String (FS × String) :=
  match content with
  | .str s => .ok (fsWrite fs path s, s)
  | _ => .error "TypeError: data must be str"

/-- `AndroidAgent._write_from_response`: extract content from the raw
response, write it to the stage's fixed `filepath`, return the written
content. -/
def write_from_response (fs : FS) (filepath : String) (response : String) :
    Except String (FS × String) :=
  writeText fs filepath (extract response).content

/-! ## Name stage (`AndroidAgent._ask_app_name`) -/

/-- The post-processing `(name or "MyApp").strip().replace("\n", " ")[:40]`
applied to the model's reply in `_ask_app_name`. -/
def ask_app_name (name : String) : String :=
  pyTake 40 (pyReplaceNl (pyStrip (if name = "" then "MyApp" else name)))

/-! ## Resilient model client (`build_api_llm_response`, OpenRouter path) -/

/-- Outcome of one `requests.post` attempt: either the request itself
raises (timeout, connection error), or an HTTP response arrives with a
status code, reason phrase, and an optional JSON body (`none` models a
body that `resp.json()` cannot decode). -/
inductive HttpOutcome where
  | raises (e : String) : HttpOutcome
  | resp (status : Nat) (reason : String) (body : Option Json) : HttpOutcome

/-- The transient status set of `build_api_llm_response`. -/
def transientCodes : List Nat := [408, 429, 500, 502, 503, 504, 524, 529]

/-- `data["choices"][0]["message"]["content"].strip()`; any shape mismatch
raises (`KeyError`/`IndexError`/`AttributeError`), modelled as `none`. -/
def choicesContent (data : Json) : Option String :=
  match data with
  | .obj fields =>
    match objGet fields "choices" with
    | some (.arr (first :: _)) =>
      match first with
      | .obj msgFields =>
        match objGet msgFields "message" with
        | some (.obj contentFields) =>
          match objGet contentFields "content" with
          | some (.str s) => some (pyStrip s)
          | _ => none
        | _ => none
      | _ => none
    | _ => none
  | _ => none

/-- The body of one iteration of the OpenRouter retry loop: everything
inside the `try` (post, transient check, `raise_for_status`, JSON decode,
content access).  `.error` carries the description of the exception that
the `except` clause catches. -/
def attemptResult (o : HttpOutcome) : Except String String :=
  match o with
  | .raises e => .error e
  | .resp status reason body =>
    if status ∈ transientCodes then
      .error (toString status ++ " " ++ reason)
    else if 400 ≤ status then
      .error (toString status ++ " " ++ reason)
    else
      match body with
      | none => .error "JSONDecodeError"
      | some data =>
        match choicesContent data with
        | none => .error "KeyError"
        | some s => .ok s

/-- A transient attempt outcome: an HTTP response whose status is in the
transient set. -/
def IsTransient (o : HttpOutcome) : Prop :=
  ∃ status reason body,
    o = .resp status reason body ∧ status ∈ transientCodes

/-- Observable result of the whole OpenRouter call: the returned content
or the terminal error (message, wrapped cause); the backoff waits
performed, in seconds and in order; the progress notifications emitted
before each wait; and the number of attempts made. -/
structure ClientResult where
  result : Except (String × Option String) String
  waits : List Nat
  notifs : List String
  attemptsMade : Nat

/-- The retry notification the source emits before sleeping. -/
def retryNotif (wait : Nat) : String :=
  "OpenRouter busy (retrying in " ++ toString wait ++ "s)..."

/-- The terminal error message of the OpenRouter path. -/
def terminalMsg : String :=
  "OpenRouter request failed. Please try again or choose another model."

/-- `for attempt in range(4)` of `build_api_llm_response` (OpenRouter
path): `oracle i` is the outcome of the `requests.post` of attempt `i`;
`remaining` counts the loop iterations still allowed (4 at the top).  On
exception: if `attempt < 3`, wait `2 ** attempt` seconds and retry after
notifying; on the last attempt, break and raise `RuntimeError(...) from
last_err`. -/
def openrouterLoop (oracle : Nat → HttpOutcome) :
    (attempt remaining : Nat) → Option String → ClientResult
  | _, 0, lastErr =>
    ⟨.error (terminalMsg, lastErr), [], [], 0⟩
  | attempt, remaining + 1, _ =>
    match attemptResult (oracle attempt) with
    | .ok s => ⟨.ok s, [], [], 1⟩
    | .error e =>
      if attempt < 3 then
        let wait := 2 ^ attempt
        let r := openrouterLoop oracle (attempt + 1) remaining (some e)
        ⟨r.result, wait :: r.waits, retryNotif wait :: r.notifs,
         r.attemptsMade + 1⟩
      else
        ⟨.error (terminalMsg, some e), [], [], 1⟩

/-- The OpenRouter path of `build_api_llm_response`. -/
def build_api_llm_response_openrouter (oracle : Nat → HttpOutcome) :
    ClientResult :=
  openrouterLoop oracle 0 4 none

/-! ## String helpers for paths and prompts -/

/-- Drop the first `n` characters (used for computing a path relative to
a directory prefix). -/
def strDrop (s : String) (n : Nat) : String :=
  ⟨s.data.drop n⟩

/-- `k` lies strictly under directory `dir` (its path starts with
`dir ++ "/"`). -/
def underDir (dir k : String) : Bool :=
  (dir ++ "/").data.isPrefixOf k.data

/-- Python `str.replace(pat, rep)` for a nonempty pattern (the source
replaces one fixed nonempty literal), replacing all occurrences, with
fuel. -/
def replaceAllAux (pat rep : List Char) : Nat → List Char → List Char
  | 0, _ => []
  | _ + 1, [] => []
  | fuel + 1, c :: s =>
    if pat.isPrefixOf (c :: s) then
      rep ++ replaceAllAux pat rep fuel ((c :: s).drop pat.length)
    else
      c :: replaceAllAux pat rep fuel s

/-- Python `text.replace(pat, rep)` for nonempty `pat`. -/
def replaceAll (text pat rep : String) : String :=
  ⟨replaceAllAux pat.data rep.data (text.data.length + 1) text.data⟩

/-! ## Materialize stage (`AndroidAgent._copy_template`) -/

/-- `OUTPUT_DIR` relative to the application directory. -/
def OUTPUT_DIR : String := "output_projects"

/-- The per-run target directory for a resolved project name. -/
def targetDirOf (project_name : String) : String :=
  OUTPUT_DIR ++ "/" ++ project_name

/-- The identifying line rewritten inside `settings.gradle.kts`. -/
def oldRootLine : String :=
  "rootProject.name = \"Empty_Activity_android_studio_base_template\""

/-- Its replacement for a chosen project name. -/
def newRootLine (project_name : String) : String :=
  "rootProject.name = \"" ++ project_name ++ "\""

/-- `shutil.rmtree(target_dir)` (guarded by `exists()` in the source;
removing an absent directory is the identity on this model, so the guard
is immaterial). -/
def copyRm (fs : FS) (target : String) : FS :=
  fun k => if underDir target k then none else fs k

/-- `shutil.copytree(TEMPLATE_DIR, target_dir)` over an empty target. -/
def copyTree (template fs : FS) (target : String) : FS :=
  fun k =>
    if underDir target k then template (strDrop k (target.length + 1))
    else fs k

/-- `local.properties` unlink (guarded by `exists()`; unlinking an absent
file is the identity on this model). -/
def copyNoLocal (fs : FS) (target : String) : FS :=
  fun k => if k = target ++ "/" ++ "local.properties" then none else fs k

/-- `AndroidAgent._copy_template` on the file-system map: remove the
target directory if present, copy the template tree below the target,
unlink `local.properties`, and stamp the project name into
`settings.gradle.kts`.  `template` maps template-relative paths to
contents. -/
def copy_template_fs (template : FS) (fs : FS) (project_name : String) : FS :=
  let target := targetDirOf project_name
  let fs3 := copyNoLocal (copyTree template (copyRm fs target) target) target
  match fs3 (target ++ "/" ++ "settings.gradle.kts") with
  | some text =>
    fsWrite fs3 (target ++ "/" ++ "settings.gradle.kts")
      (replaceAll text oldRootLine (newRootLine project_name))
  | none => fs3

/-! ## Generation pipeline (`AndroidAgent.run`) -/

/-- The gated stages of `AndroidAgent.run`, in order. -/
inductive Stage where
  | nameSel | copyTpl | plan | mainA | layout | manifest | gradle
deriving Repr, DecidableEq

/-- The fixed stage order of `AndroidAgent.run`. -/
def stageList : List Stage :=
  [.nameSel, .copyTpl, .plan, .mainA, .layout, .manifest, .gradle]

/-- The model's replies, one per backend invocation of a run (the model
backend is an opaque external capability; quantifying over this record
covers all its behaviours). -/
structure Responses where
  nameResp : String
  archResp : String
  mainResp : String
  layoutResp : String
  manifestResp : String
  gradleResp : String

/-- The mutable fields of `AndroidAgent` that a run touches. -/
structure AgentState where
  idea_text : String
  app_name : String
  architecture_plan : String
  generated_main_activity : String
  generated_layout : String
  generated_manifest : String
  generated_gradle : String
  package_name : String

/-- `AndroidAgent.__init__` field values (before `run` stores the idea). -/
def initAgentState (idea : String) : AgentState :=
  { idea_text := idea
    app_name := ""
    architecture_plan := ""
    generated_main_activity := ""
    generated_layout := ""
    generated_manifest := ""
    generated_gradle := ""
    package_name := "com.example.empty_activity_android_studio_base_template" }

/-- State threaded through a pipeline run: agent fields, the file system,
the `target_dir` local, and observability traces (stages invoked, prompt
sent per file stage, file writes performed). -/
structure PipeState where
  st : AgentState
  fs : FS
  target_dir : String
  invoked : List Stage
  prompts : List (Stage × String)
  writes : List (Stage × String × String)

/-- Initial pipeline state (`run` stores `idea_text` before the first
cancellation poll). -/
def initPipe (fs0 : FS) (idea : String) : PipeState :=
  { st := initAgentState idea
    fs := fs0
    target_dir := ""
    invoked := []
    prompts := []
    writes := [] }

/-- `AndroidAgent._llm_call` prompt assembly: instruction, then the
accumulated context if nonempty, then the pre-existing file content if
nonempty. -/
def llm_prompt (instruction existing extra_context : String) : String :=
  if existing ≠ "" then
    (if extra_context ≠ "" then
      instruction ++ "\n\nContext:\n" ++ extra_context
     else instruction) ++ "\n\nExisting file content:\n" ++ existing
  else
    (if extra_context ≠ "" then
      instruction ++ "\n\nContext:\n" ++ extra_context
     else instruction)

/-- Target-relative path of `MainActivity.kt`. -/
def mainRel : String :=
  "app/src/main/java/com/example/empty_activity_android_studio_base_template/MainActivity.kt"

/-- Target-relative path of `activity_main.xml`. -/
def layoutRel : String := "app/src/main/res/layout/activity_main.xml"

/-- Target-relative path of `AndroidManifest.xml`. -/
def manifestRel : String := "app/src/main/AndroidManifest.xml"

/-- Target-relative path of `app/build.gradle.kts`. -/
def gradleRel : String := "app/build.gradle.kts"

/-- Target-relative path of `strings.xml`. -/
def stringsRel : String := "app/src/main/res/values/strings.xml"

/-- The instruction of `_generate_main_activity`. -/
def mainInstruction (idea pkg : String) : String :=
  "Create the main activity logic for an Android app: \x27" ++ idea ++ "\x27.\n" ++
  "Constraints:\n" ++
  "- Keep package EXACTLY \x27" ++ pkg ++ "\x27.\n" ++
  "- File path is \x27app/src/main/java/com/example/empty_activity_android_studio_base_template/MainActivity.kt\x27.\n" ++
  "- Use a single Activity named MainActivity.\n" ++
  "- Do NOT add new classes/files (like ViewModels). Keep code self-contained.\n" ++
  "- Prefer simple Compose UI or classic Views; be minimal and working.\n" ++
  "Return ONLY JSON with keys \x27filename\x27 and \x27content\x27."

/-- The instruction of `_generate_layout`. -/
def layoutInstruction : String :=
  "Create the XML layout \x27app/src/main/res/layout/activity_main.xml\x27 that matches this MainActivity.kt.\n" ++
  "Constraints:\n- Keep it minimal.\n- Ensure any view IDs referenced by MainActivity exist.\n" ++
  "Return ONLY JSON with \x27filename\x27 and \x27content\x27."

/-- The instruction of `_generate_manifest`. -/
def manifestInstruction : String :=
  "Create \x27app/src/main/AndroidManifest.xml\x27 for this app.\n" ++
  "Constraints:\n" ++
  "- Use activity name \x27.MainActivity\x27 and theme from template.\n- Do NOT add new activities.\n- Keep package implicit (no \x27package\x27 attr).\n" ++
  "Return ONLY JSON with \x27filename\x27 and \x27content\x27."

/-- The instruction of `_generate_gradle`. -/
def gradleInstruction : String :=
  "Produce \x27app/build.gradle.kts\x27 compatible with the existing template.\n" ++
  "Constraints:\n- Do NOT reference non-existing modules (no project(\":domain\")).\n- Use only AndroidX + Compose basics if needed.\n- Keep versions managed by the versions catalog (libs).\n" ++
  "Return ONLY JSON with \x27filename\x27 and \x27content\x27."

/-- Shared body of the four `_generate_*` methods: read the existing file,
assemble the prompt, extract the model's response, write it to the stage's
fixed path, and record the written content. -/
def fileStageStep (stg : Stage) (rel instruction extra response : String)
    (setGen : AgentState → String → AgentState) (p : PipeState) :
    Except String PipeState :=
  let path := p.target_dir ++ "/" ++ rel
  let existing := (p.fs path).getD ""
  let prompt := llm_prompt instruction existing extra
  match write_from_response p.fs path response with
  | .error e => .error e
  | .ok (fs', content) =>
    .ok { p with
          st := setGen p.st content
          fs := fs'
          invoked := p.invoked ++ [stg]
          prompts := p.prompts ++ [(stg, prompt)]
          writes := p.writes ++ [(stg, path, content)] }

/-- One gated stage of `AndroidAgent.run` (the stage body, after the
cancellation poll). -/
def stepStage (template : FS) (rs : Responses) :
    Stage → PipeState → Except String PipeState
  | .nameSel, p =>
    .ok { p with
          st := { p.st with app_name := ask_app_name rs.nameResp }
          invoked := p.invoked ++ [.nameSel] }
  | .copyTpl, p =>
    .ok { p with
          fs := copy_template_fs template p.fs p.st.app_name
          target_dir := targetDirOf p.st.app_name
          invoked := p.invoked ++ [.copyTpl] }
  | .plan, p =>
    .ok { p with
          st := { p.st with architecture_plan := rs.archResp }
          invoked := p.invoked ++ [.plan] }
  | .mainA, p =>
    fileStageStep .mainA mainRel
      (mainInstruction p.st.idea_text p.st.package_name)
      ("App name: " ++ p.st.app_name ++ "\nArchitecture plan (optional):\n" ++
        p.st.architecture_plan)
      rs.mainResp
      (fun st c => { st with generated_main_activity := c }) p
  | .layout, p =>
    fileStageStep .layout layoutRel layoutInstruction
      ("MainActivity.kt just generated:\n" ++ p.st.generated_main_activity)
      rs.layoutResp
      (fun st c => { st with generated_layout := c }) p
  | .manifest, p =>
    fileStageStep .manifest manifestRel manifestInstruction
      ("MainActivity.kt:\n" ++ p.st.generated_main_activity ++
        "\n\nactivity_main.xml:\n" ++ p.st.generated_layout)
      rs.manifestResp
      (fun st c => { st with generated_manifest := c }) p
  | .gradle, p =>
    fileStageStep .gradle gradleRel gradleInstruction
      ("MainActivity.kt:\n" ++ p.st.generated_main_activity)
      rs.gradleResp
      (fun st c => { st with generated_gradle := c }) p

/-- `AndroidAgent._update_strings_xml`: rewrite the text between
`<string name="app_name">` and the nearest `</string>` to the chosen app
name, for every occurrence.  The `re.sub` pattern is modelled with the
template's literal single-space opening tag; the stage is cosmetic and
failures are swallowed (an absent file leaves the file system unchanged,
as does an unmatched pattern). -/
def substAppNameClose : Nat → List Char → Option (List Char)
  | 0, _ => none
  | _ + 1, s =>
    if ("</string>".data).isPrefixOf s then some (s.drop "</string>".length)
    else match s with
      | [] => none
      | _ :: r => substAppNameClose r.length.succ r

/-- Character-level traversal for `_update_strings_xml`'s substitution. -/
def substAppNameAux (appName : List Char) : Nat → List Char → List Char
  | 0, s => s
  | fuel + 1, s =>
    if ("<string name=\"app_name\">".data).isPrefixOf s then
      match substAppNameClose (s.length + 1)
          (s.drop "<string name=\"app_name\">".length) with
      | some rest =>
        "<string name=\"app_name\">".data ++ appName ++ "</string>".data ++
          substAppNameAux appName fuel rest
      | none =>
        match s with
        | [] => []
        | c :: r => c :: substAppNameAux appName fuel r
    else match s with
      | [] => []
      | c :: r => c :: substAppNameAux appName fuel r

/-- The regex substitution of `_update_strings_xml` on one text. -/
def substAppName (appName text : String) : String :=
  ⟨substAppNameAux appName.data (text.data.length + 1) text.data⟩

/-- `AndroidAgent._update_strings_xml` on the file-system map. -/
def update_strings_xml (fs : FS) (target_dir app_name : String) : FS :=
  let path := target_dir ++ "/" ++ stringsRel
  match fs path with
  | some text => fsWrite fs path (substAppName app_name text)
  | none => fs

/-- The cancellation error message of `AndroidAgent.run`. -/
def cancelMsg : String := "Operation cancelled"

/-- The gated part of `AndroidAgent.run`: poll the cancellation predicate
(`stop n` is its value at the `n`-th poll), then execute the stage;
repeat down the stage list. -/
def runStages (template : FS) (rs : Responses) (stop : Nat → Bool) :
    List Stage → Nat → PipeState → Except String Unit × PipeState
  | [], _, p => (.ok (), p)
  | stg :: rest, n, p =>
    if stop n then (.error cancelMsg, p)
    else
      match stepStage template rs stg p with
      | .error e => (.error e, p)
      | .ok p' => runStages template rs stop rest (n + 1) p'

/-- `AndroidAgent.run`: the gated stages, then the cosmetic
`_update_strings_xml`, then return the target directory. -/
def run (template : FS) (rs : Responses) (stop : Nat → Bool) (fs0 : FS)
    (idea : String) : Except String String × PipeState :=
  match runStages template rs stop stageList 0 (initPipe fs0 idea) with
  | (.error e, p) => (.error e, p)
  | (.ok (), p) =>
    (.ok p.target_dir,
     { p with fs := update_strings_xml p.fs p.target_dir p.st.app_name })

/-- The stage body as a total function, used to describe the effect of a
successfully executed stage prefix. -/
def applyStage (template : FS) (rs : Responses) (stg : Stage)
    (p : PipeState) : PipeState :=
  match stepStage template rs stg p with
  | .ok p' => p'
  | .error _ => p

/-- Effect of a list of successfully executed stages. -/
def applyStages (template : FS) (rs : Responses) (l : List Stage)
    (p : PipeState) : PipeState :=
  l.foldl (fun q stg => applyStage template rs stg q) p

/-- The content that `extract` produces for a response, when it is a
string (observer used to state the claims). -/
def contentStr (response : String) : String :=
  match (extract response).content with
  | .str s => s
  | _ => ""

/-- All four file-stage responses extract to string contents (so
`write_text` does not raise `TypeError`); holds in particular for every
response on the fallback path and every structured response with string
content. -/
def StrOk (rs : Responses) : Prop :=
  (extract rs.mainResp).content = .str (contentStr rs.mainResp) ∧
  (extract rs.layoutResp).content = .str (contentStr rs.layoutResp) ∧
  (extract rs.manifestResp).content = .str (contentStr rs.manifestResp) ∧
  (extract rs.gradleResp).content = .str (contentStr rs.gradleResp)

/-- `sub` occurs as a contiguous substring of `s`. -/
def strContains (s sub : String) : Prop :=
  ∃ a b, s = a ++ sub ++ b

/-- Description of the exception an attempt outcome raises (used to state
which cause the terminal error wraps). -/
def errOf (o : HttpOutcome) : String :=
  match attemptResult o with
  | .error e => e
  | .ok _ => ""

/-- The prompts a run sent for a given stage, in order. -/
def promptsFor (p : PipeState) (stg : Stage) : List String :=
  p.prompts.filterMap (fun x => if x.1 = stg then some x.2 else none)

/-- The file writes a run performed for a given stage: (path, content)
pairs in order. -/
def writesFor (p : PipeState) (stg : Stage) : List (String × String) :=
  p.writes.filterMap (fun x => if x.1 = stg then some x.2 else none)

/-! ## Helper lemmas -/

/-- Characterisation of the empty string by its character list. -/
theorem data_eq_nil_iff (s : String) : s.data = [] ↔ s = "" := by
  constructor
  · intro h
    apply String.ext
    rw [h]
  · intro h
    subst h
    rfl

/-- Appending to a nonempty string on the left stays nonempty. -/
theorem append_ne_empty_left (a b : String) (h : a ≠ "") : a ++ b ≠ "" := by
  intro hab
  apply h
  have hd : (a ++ b).data = [] := (data_eq_nil_iff _).2 hab
  rw [String.data_append] at hd
  rcases List.append_eq_nil.1 hd with ⟨h1, _⟩
  exact (data_eq_nil_iff a).1 h1

/-! ## C3: structured extraction -/

/-- C3 (counterexample): a raw response that contains the well-formed
JSON object `\x7b"content":"X"\x7d` with nonempty content, but whose prose
adds an earlier `\x7b`, is not extracted on the structured path: the
first-`\x7b`-to-last-`\x7d` slice does not parse and the extractor falls
back to the raw string instead of returning `X`. -/
theorem extract_prose_brace_counterexample :
    strContains "see \x7bbelow \x7b\"content\":\"X\"\x7d"
      "\x7b\"content\":\"X\"\x7d" ∧
    jsonParse "\x7b\"content\":\"X\"\x7d" =
      some (.obj [("content", .str "X")]) ∧
    ("X" : String) ≠ "" ∧
    extract "see \x7bbelow \x7b\"content\":\"X\"\x7d" =
      ⟨.str "see \x7bbelow \x7b\"content\":\"X\"\x7d", false⟩ :=
  ⟨⟨"see \x7bbelow ", "", by rfl⟩, rfl, by decide, rfl⟩

/-- C3 (amended): whenever the slice of the raw response from its first
`\x7b` to its last `\x7d` parses as a JSON object whose `content` field is
a nonempty string `X`, extraction returns `X` on the structured path —
prose before the first `\x7b` and after the last `\x7d` cannot interfere,
but prose adding further braces can. -/
theorem extract_structured (r : String) (fields : List (String × Json))
    (X : String)
    (hp : jsonParse (extractSlice r) = some (.obj fields))
    (hc : objGet fields "content" = some (.str X))
    (hX : X ≠ "") :
    extract r = ⟨.str X, true⟩ := by
  unfold extract
  rw [hp]
  simp only [hc, Option.getD_some]
  have ht : jsonTruthy (.str X) = true := by
    simp [jsonTruthy, hX]
  rw [ht]
  simp

/-- C3 (witness): a concrete structured response surrounded by brace-free
prose extracts to its content field. -/
theorem extract_structured_witness :
    jsonParse (extractSlice
      "Answer: \x7b\"filename\":\"a.kt\",\"content\":\"hi\"\x7d thanks") =
      some (.obj [("filename", .str "a.kt"), ("content", .str "hi")]) ∧
    extract "Answer: \x7b\"filename\":\"a.kt\",\"content\":\"hi\"\x7d thanks" =
      ⟨.str "hi", true⟩ :=
  ⟨rfl,
   extract_structured _ [("filename", .str "a.kt"), ("content", .str "hi")]
     "hi" rfl rfl (by decide)⟩

/-! ## C4: fallback extraction and totality -/

/-- C4: on a parse failure of the first-`\x7b`-to-last-`\x7d` slice
(including absent or unbalanced braces), and on a missing or
Python-falsy `content` field, extraction returns the raw response
verbatim with `was_structured = false`; and extraction is total — every
input yields either the structured content or exactly that fallback
(no exception escapes the `try`). -/
theorem extract_fallback_total :
    (∀ r, jsonParse (extractSlice r) = none → extract r = ⟨.str r, false⟩) ∧
    (∀ r fields, jsonParse (extractSlice r) = some (.obj fields) →
      jsonTruthy ((objGet fields "content").getD (.str "")) = false →
      extract r = ⟨.str r, false⟩) ∧
    (∀ r, extract r = ⟨.str r, false⟩ ∨ (extract r).was_structured = true) := by
  refine ⟨?_, ?_, ?_⟩
  · intro r h
    unfold extract
    rw [h]
  · intro r fields h ht
    unfold extract
    rw [h]
    simp only [ht]
    simp
  · intro r
    unfold extract
    rcases h : jsonParse (extractSlice r) with _ | j
    · left; rfl
    · cases j with
      | obj fields =>
        by_cases ht : jsonTruthy ((objGet fields "content").getD (.str "")) = true
        · right; simp [ht]
        · left; simp only [Bool.not_eq_true] at ht; simp [ht]
      | null => left; rfl
      | bool b => left; rfl
      | num a b c d => left; rfl
      | str s => left; rfl
      | arr xs => left; rfl

/-- C4 (witness): concrete inputs for the fallback paths — a brace-free
response, and a structured response with a missing `content` field. -/
theorem extract_fallback_total_witness :
    jsonParse (extractSlice "no json here") = none ∧
    extract "no json here" = ⟨.str "no json here", false⟩ ∧
    jsonParse (extractSlice "\x7b\"filename\":\"a.kt\"\x7d") =
      some (.obj [("filename", .str "a.kt")]) ∧
    extract "\x7b\"filename\":\"a.kt\"\x7d" =
      ⟨.str "\x7b\"filename\":\"a.kt\"\x7d", false⟩ :=
  ⟨rfl, extract_fallback_total.1 "no json here" rfl, rfl,
   extract_fallback_total.2.1 "\x7b\"filename\":\"a.kt\"\x7d"
     [("filename", .str "a.kt")] rfl rfl⟩

/-! ## C7: name stage post-processing -/

/-- C7 (counterexample): a nonempty, all-whitespace model reply is not
replaced by the fallback name — it is stored as the empty app name,
contradicting "the stored app_name is never empty". -/
theorem ask_app_name_whitespace_counterexample :
    ("\n" : String) ≠ "" ∧ ask_app_name "\n" = "" :=
  ⟨by decide, rfl⟩

/-- C7 (amended): the stored name is the reply (or the fallback `MyApp`
when the reply is the empty string) stripped of surrounding whitespace,
newlines replaced by spaces, truncated to 40 characters; it is nonempty
whenever the reply is empty or contains some non-whitespace character,
but a nonempty all-whitespace reply yields an empty stored name. -/
theorem ask_app_name_amended (name : String) :
    (ask_app_name name).length ≤ 40 ∧
    (name = "" → ask_app_name name = "MyApp") ∧
    (name.data.any (fun c => !pyIsSpace c) = true → ask_app_name name ≠ "") := by
  refine ⟨?_, ?_, ?_⟩
  · show (pyTake 40 _).length ≤ 40
    unfold pyTake
    show (List.take 40 _).length ≤ 40
    simp [List.length_take]
  · intro h; subst h; rfl
  · intro h
    obtain ⟨c, hc, hcs⟩ := List.any_eq_true.1 h
    have hname : name ≠ "" := by
      intro h0
      rw [h0] at hc
      exact absurd hc (List.not_mem_nil c)
    intro hcontra
    have hA : ask_app_name name =
        ⟨List.take 40
          ((((name.data.dropWhile pyIsSpace).reverse.dropWhile
              pyIsSpace).reverse).map
            (fun c => if c = '\n' then ' ' else c))⟩ := by
      unfold ask_app_name pyTake pyReplaceNl pyStrip
      rw [if_neg hname]
    rw [hA] at hcontra
    have hd : List.take 40
        ((((name.data.dropWhile pyIsSpace).reverse.dropWhile
            pyIsSpace).reverse).map
          (fun c => if c = '\n' then ' ' else c)) = [] :=
      (data_eq_nil_iff _).2 hcontra
    rw [List.take_eq_nil_iff] at hd
    rcases hd with hd | hd
    · exact absurd hd (by decide)
    · rw [List.map_eq_nil_iff] at hd
      rw [List.reverse_eq_nil_iff] at hd
      have hmem1 : c ∈ name.data.dropWhile pyIsSpace := by
        have hsplit := List.takeWhile_append_dropWhile (p := pyIsSpace)
          (l := name.data)
        have hc2 := hc
        rw [← hsplit] at hc2
        rcases List.mem_append.1 hc2 with hL | hR
        · exact absurd (List.mem_takeWhile_imp hL) (by simpa using hcs)
        · exact hR
      have hmem2 : c ∈ (name.data.dropWhile pyIsSpace).reverse :=
        List.mem_reverse.2 hmem1
      have hsp := List.dropWhile_eq_nil_iff.1 hd c hmem2
      exact absurd hsp (by simpa using hcs)

/-- C7 (witness): concrete replies — a normal reply stays nonempty and
within 40 characters, the empty reply falls back to `MyApp`. -/
theorem ask_app_name_amended_witness :
    (ask_app_name "ShopList").length ≤ 40 ∧
    ask_app_name "" = "MyApp" ∧
    ask_app_name "ShopList" ≠ "" :=
  ⟨(ask_app_name_amended "ShopList").1,
   (ask_app_name_amended "").2.1 rfl,
   (ask_app_name_amended "ShopList").2.2 (by decide)⟩

/-! ## C9: the write target is stage-determined -/

/-- C9: a successful extraction-and-write writes exactly to the
stage-supplied `filepath` — every other path is untouched — for every
response; in particular two responses differing only in their `filename`
field are written to the same stage path. -/
theorem write_target_fixed (fs : FS) (fp r1 r2 k : String) (hk : k ≠ fp)
    (fs1 fs2 : FS) (c1 c2 : String)
    (h1 : write_from_response fs fp r1 = .ok (fs1, c1))
    (h2 : write_from_response fs fp r2 = .ok (fs2, c2)) :
    fs1 k = fs k ∧ fs2 k = fs k ∧ fs1 fp = some c1 ∧ fs2 fp = some c2 := by
  unfold write_from_response writeText at h1 h2
  split at h1
  case _ s hs =>
    split at h2
    case _ s2 hs2 =>
      injection h1 with h1'
      injection h2 with h2'
      injection h1' with hfs1 hc1
      injection h2' with hfs2 hc2
      subst hfs1; subst hfs2; subst hc1; subst hc2
      refine ⟨?_, ?_, ?_, ?_⟩ <;> simp [fsWrite, hk]
    all_goals exact absurd h2 (by intro h; cases h)
  all_goals exact absurd h1 (by intro h; cases h)

/-- C9 (witness): two concrete structured responses that differ only in
their `filename` fields are both written to the stage path, and a
distinct path is untouched. -/
theorem write_target_fixed_witness :
    extractFilename "\x7b\"filename\":\"a.kt\",\"content\":\"A\"\x7d" ≠
      extractFilename "\x7b\"filename\":\"b.kt\",\"content\":\"A\"\x7d" ∧
    fsWrite (fun _ => none) "proj/Main.kt" "A" "a.kt" = none ∧
    fsWrite (fun _ => none) "proj/Main.kt" "A" "proj/Main.kt" = some "A" := by
  refine ⟨?_, ?_, ?_⟩
  · intro h
    rw [show extractFilename "\x7b\"filename\":\"a.kt\",\"content\":\"A\"\x7d"
          = some (.str "a.kt") from rfl,
        show extractFilename "\x7b\"filename\":\"b.kt\",\"content\":\"A\"\x7d"
          = some (.str "b.kt") from rfl] at h
    simp only [Option.some.injEq, Json.str.injEq] at h
    exact absurd h (by decide)
  · exact (write_target_fixed (fun _ => none) "proj/Main.kt"
      "\x7b\"filename\":\"a.kt\",\"content\":\"A\"\x7d"
      "\x7b\"filename\":\"b.kt\",\"content\":\"A\"\x7d"
      "a.kt" (by decide) _ _ _ _ rfl rfl).1
  · exact (write_target_fixed (fun _ => none) "proj/Main.kt"
      "\x7b\"filename\":\"a.kt\",\"content\":\"A\"\x7d"
      "\x7b\"filename\":\"b.kt\",\"content\":\"A\"\x7d"
      "a.kt" (by decide) _ _ _ _ rfl rfl).2.2.1

/-! ## File stage lemmas -/

/-- A file stage whose response extracts to a string content succeeds and
has exactly this effect. -/
theorem fileStageStep_eq_ok (stg : Stage)
    (rel ins extra response : String)
    (setGen : AgentState → String → AgentState) (p : PipeState) (c : String)
    (h : (extract response).content = .str c) :
    fileStageStep stg rel ins extra response setGen p =
      .ok { p with
            st := setGen p.st c
            fs := fsWrite p.fs (p.target_dir ++ "/" ++ rel) c
            invoked := p.invoked ++ [stg]
            prompts := p.prompts ++
              [(stg, llm_prompt ins
                ((p.fs (p.target_dir ++ "/" ++ rel)).getD "") extra)]
            writes := p.writes ++
              [(stg, p.target_dir ++ "/" ++ rel, c)] } := by
  unfold fileStageStep write_from_response writeText
  rw [h]

/-- A file stage whose response extracts to a non-string content raises
`TypeError` from `write_text`. -/
theorem fileStageStep_eq_err (stg : Stage)
    (rel ins extra response : String)
    (setGen : AgentState → String → AgentState) (p : PipeState)
    (h : ∀ s, (extract response).content ≠ .str s) :
    fileStageStep stg rel ins extra response setGen p =
      .error "TypeError: data must be str" := by
  unfold fileStageStep write_from_response writeText
  rcases hx : (extract response).content with _ | b | ⟨n, i, f, e⟩ | s | xs | fl
  case str => exact absurd hx (h s)
  all_goals rfl

/-- Inversion: a successful file stage wrote the extracted string content
and recorded exactly that effect. -/
theorem fileStageStep_ok_inv (stg : Stage)
    (rel ins extra response : String)
    (setGen : AgentState → String → AgentState) (p p' : PipeState)
    (h : fileStageStep stg rel ins extra response setGen p = .ok p') :
    (extract response).content = .str (contentStr response) ∧
    p' = { p with
           st := setGen p.st (contentStr response)
           fs := fsWrite p.fs (p.target_dir ++ "/" ++ rel)
             (contentStr response)
           invoked := p.invoked ++ [stg]
           prompts := p.prompts ++
             [(stg, llm_prompt ins
               ((p.fs (p.target_dir ++ "/" ++ rel)).getD "") extra)]
           writes := p.writes ++
             [(stg, p.target_dir ++ "/" ++ rel, contentStr response)] } := by
  rcases hx : (extract response).content with _ | b | ⟨n, i, f, e⟩ | s | xs | fl
  case str =>
    rw [fileStageStep_eq_ok stg rel ins extra response setGen p s hx] at h
    injection h with h'
    have hcs : contentStr response = s := by
      unfold contentStr
      rw [hx]
    constructor
    · rw [hcs]
    · rw [hcs]
      exact h'.symm
  all_goals
    rw [fileStageStep_eq_err stg rel ins extra response setGen p
      (fun s hs => Json.noConfusion (hx.symm.trans hs))] at h
  all_goals exact Except.noConfusion h

/-! ## C10: pipeline state mirrors the disk -/

/-- C10: for each of the four file stages, the content recorded in the
pipeline state (`generated_*`) is exactly the string written to the
stage's file — the extraction-and-write step returns precisely the
content it wrote. -/
theorem state_matches_disk (template : FS) (rs : Responses)
    (p p' : PipeState) :
    (stepStage template rs .mainA p = .ok p' →
      p'.st.generated_main_activity = contentStr rs.mainResp ∧
      p'.fs (p.target_dir ++ "/" ++ mainRel) =
        some p'.st.generated_main_activity) ∧
    (stepStage template rs .layout p = .ok p' →
      p'.st.generated_layout = contentStr rs.layoutResp ∧
      p'.fs (p.target_dir ++ "/" ++ layoutRel) =
        some p'.st.generated_layout) ∧
    (stepStage template rs .manifest p = .ok p' →
      p'.st.generated_manifest = contentStr rs.manifestResp ∧
      p'.fs (p.target_dir ++ "/" ++ manifestRel) =
        some p'.st.generated_manifest) ∧
    (stepStage template rs .gradle p = .ok p' →
      p'.st.generated_gradle = contentStr rs.gradleResp ∧
      p'.fs (p.target_dir ++ "/" ++ gradleRel) =
        some p'.st.generated_gradle) := by
  refine ⟨?_, ?_, ?_, ?_⟩ <;>
    · intro h
      simp only [stepStage] at h
      obtain ⟨hx, hp'⟩ := fileStageStep_ok_inv _ _ _ _ _ _ _ _ h
      subst hp'
      exact ⟨rfl, by simp [fsWrite]⟩

/-- C10 (witness): a concrete main-activity stage records in the state
exactly what it wrote to disk. -/
theorem state_matches_disk_witness :
    (applyStage (fun _ => none) ⟨"n", "a", "m", "l", "f", "g"⟩ Stage.mainA
      (initPipe (fun _ => none) "idea")).st.generated_main_activity =
      contentStr "m" ∧
    (applyStage (fun _ => none) ⟨"n", "a", "m", "l", "f", "g"⟩ Stage.mainA
      (initPipe (fun _ => none) "idea")).fs
        ((initPipe (fun _ => none) "idea").target_dir ++ "/" ++ mainRel) =
      some ((applyStage (fun _ => none) ⟨"n", "a", "m", "l", "f", "g"⟩
        Stage.mainA
        (initPipe (fun _ => none) "idea")).st.generated_main_activity) :=
  (state_matches_disk (fun _ => none) ⟨"n", "a", "m", "l", "f", "g"⟩
    (initPipe (fun _ => none) "idea")
    (applyStage (fun _ => none) ⟨"n", "a", "m", "l", "f", "g"⟩ Stage.mainA
      (initPipe (fun _ => none) "idea"))).1 rfl

/-! ## Resilient client lemmas -/

/-- A transient attempt outcome raises inside the `try`. -/
theorem attempt_err (o : HttpOutcome) (h : IsTransient o) :
    ∃ e, attemptResult o = .error e := by
  obtain ⟨st, re, bo, ho, hst⟩ := h
  subst ho
  simp only [attemptResult]
  rw [if_pos hst]
  exact ⟨_, rfl⟩

/-- When all four attempts raise, the loop performs the three backoff
waits with their notifications and ends with the terminal error wrapping
the last cause. -/
theorem openrouter_all_fail (oracle : Nat → HttpOutcome)
    (h : ∀ j, j < 4 → ∃ e, attemptResult (oracle j) = .error e) :
    build_api_llm_response_openrouter oracle =
      ⟨.error (terminalMsg, some (errOf (oracle 3))), [1, 2, 4],
       [retryNotif 1, retryNotif 2, retryNotif 4], 4⟩ := by
  obtain ⟨e0, h0⟩ := h 0 (by omega)
  obtain ⟨e1, h1⟩ := h 1 (by omega)
  obtain ⟨e2, h2⟩ := h 2 (by omega)
  obtain ⟨e3, h3⟩ := h 3 (by omega)
  have he3 : errOf (oracle 3) = e3 := by
    unfold errOf
    rw [h3]
  unfold build_api_llm_response_openrouter
  simp [openrouterLoop, h0, h1, h2, h3, he3]

/-- After `k ≤ 3` raising attempts and a success, the loop returns the
success, having performed `k` waits of `2 ^ j` with their notifications. -/
theorem openrouter_succeeds_after (oracle : Nat → HttpOutcome) (k : Nat)
    (s : String) (hk : k ≤ 3)
    (hfail : ∀ j, j < k → ∃ e, attemptResult (oracle j) = .error e)
    (hs : attemptResult (oracle k) = .ok s) :
    build_api_llm_response_openrouter oracle =
      ⟨.ok s, (List.range k).map (fun j => 2 ^ j),
       (List.range k).map (fun j => retryNotif (2 ^ j)), k + 1⟩ := by
  unfold build_api_llm_response_openrouter
  interval_cases k
  · simp [openrouterLoop, hs, List.range_zero]
  · obtain ⟨e0, h0⟩ := hfail 0 (by omega)
    simp [openrouterLoop, h0, hs, List.range_succ]
  · obtain ⟨e0, h0⟩ := hfail 0 (by omega)
    obtain ⟨e1, h1⟩ := hfail 1 (by omega)
    simp [openrouterLoop, h0, h1, hs, List.range_succ]
  · obtain ⟨e0, h0⟩ := hfail 0 (by omega)
    obtain ⟨e1, h1⟩ := hfail 1 (by omega)
    obtain ⟨e2, h2⟩ := hfail 2 (by omega)
    simp [openrouterLoop, h0, h1, h2, hs, List.range_succ]

/-! ## C2: transient retry with exponential backoff -/

/-- C2: after `k ≤ 3` transient failures followed by a success, the
OpenRouter call returns the success and performs exactly `k` backoff
waits of `2 ^ attempt` seconds, in order, each preceded by its progress
notification; after 4 transient failures it raises the single terminal
error after exactly 4 attempts, wrapping the last underlying cause. -/
theorem retry_backoff_behaviour :
    (∀ (oracle : Nat → HttpOutcome) (k : Nat) (s : String), k ≤ 3 →
      (∀ j, j < k → IsTransient (oracle j)) →
      attemptResult (oracle k) = .ok s →
      build_api_llm_response_openrouter oracle =
        ⟨.ok s, (List.range k).map (fun j => 2 ^ j),
         (List.range k).map (fun j => retryNotif (2 ^ j)), k + 1⟩) ∧
    (∀ (oracle : Nat → HttpOutcome),
      (∀ j, j < 4 → IsTransient (oracle j)) →
      build_api_llm_response_openrouter oracle =
        ⟨.error (terminalMsg, some (errOf (oracle 3))), [1, 2, 4],
         [retryNotif 1, retryNotif 2, retryNotif 4], 4⟩) :=
  ⟨fun oracle k s hk hf hs =>
    openrouter_succeeds_after oracle k s hk
      (fun j hj => attempt_err _ (hf j hj)) hs,
   fun oracle hf =>
    openrouter_all_fail oracle (fun j hj => attempt_err _ (hf j hj))⟩

/-- C2 (witness): one rate-limited attempt then a success returns the
trimmed content after one 1-second wait; four service-unavailable
attempts end in the terminal error after three waits. -/
theorem retry_backoff_behaviour_witness :
    build_api_llm_response_openrouter
      (fun j => if j = 0 then .resp 429 "Too Many Requests" none
        else .resp 200 "OK" (some (.obj [("choices", .arr [.obj
          [("message", .obj [("content", .str " hi ")])]])])) ) =
      ⟨.ok "hi", [1], [retryNotif 1], 2⟩ ∧
    build_api_llm_response_openrouter
      (fun _ => .resp 503 "Service Unavailable" none) =
      ⟨.error (terminalMsg,
          some (errOf (.resp 503 "Service Unavailable" none))),
        [1, 2, 4], [retryNotif 1, retryNotif 2, retryNotif 4], 4⟩ := by
  constructor
  · have h := retry_backoff_behaviour.1
      (fun j => if j = 0 then .resp 429 "Too Many Requests" none
        else .resp 200 "OK" (some (.obj [("choices", .arr [.obj
          [("message", .obj [("content", .str " hi ")])]])])) )
      1 "hi" (by omega)
      (fun j hj => by
        interval_cases j
        exact ⟨429, "Too Many Requests", none, rfl, by decide⟩)
      rfl
    simpa [List.range_succ] using h
  · exact retry_backoff_behaviour.2
      (fun _ => .resp 503 "Service Unavailable" none)
      (fun _ _ => ⟨503, "Service Unavailable", none, rfl, by decide⟩)

/-! ## C5: non-transient failures are retried too -/

/-- C5 (counterexample): an authentication failure (HTTP 401, not in the
transient set) is nevertheless caught by the broad `except` and retried
with the full backoff schedule — three waits and four attempts — instead
of being propagated immediately. -/
theorem nontransient_retried_counterexample :
    ¬(401 ∈ transientCodes) ∧
    build_api_llm_response_openrouter
      (fun _ => .resp 401 "Unauthorized" none) =
      ⟨.error (terminalMsg, some "401 Unauthorized"), [1, 2, 4],
       [retryNotif 1, retryNotif 2, retryNotif 4], 4⟩ :=
  ⟨by decide, rfl⟩

/-- C5 (amended): in the OpenRouter path every failing attempt —
non-transient included — is caught and retried with backoff exactly like
a transient one; only after 4 failed attempts does the client raise a
single terminal error wrapping the last underlying cause. -/
theorem nontransient_retried (oracle : Nat → HttpOutcome)
    (h : ∀ j, j < 4 → ∃ e, attemptResult (oracle j) = .error e) :
    build_api_llm_response_openrouter oracle =
      ⟨.error (terminalMsg, some (errOf (oracle 3))), [1, 2, 4],
       [retryNotif 1, retryNotif 2, retryNotif 4], 4⟩ :=
  openrouter_all_fail oracle h

/-- C5 (witness): four malformed-request failures (HTTP 400) are retried
with the full backoff schedule before the terminal error. -/
theorem nontransient_retried_witness :
    build_api_llm_response_openrouter
      (fun _ => .resp 400 "Bad Request" none) =
      ⟨.error (terminalMsg, some (errOf (.resp 400 "Bad Request" none))),
       [1, 2, 4], [retryNotif 1, retryNotif 2, retryNotif 4], 4⟩ :=
  nontransient_retried (fun _ => .resp 400 "Bad Request" none)
    (fun _ _ => ⟨"400 Bad Request", rfl⟩)

/-! ## Path lemmas -/

/-- Rebuilding a string from its characters is the identity. -/
theorem mk_data (s : String) : (⟨s.data⟩ : String) = s := by
  cases s
  rfl

/-- Left cancellation for string append. -/
theorem str_append_left_cancel {a b c : String} (h : a ++ b = a ++ c) :
    b = c := by
  apply String.ext
  have hd := congrArg String.data h
  rw [String.data_append, String.data_append] at hd
  exact List.append_cancel_left hd

/-- A path formed below a directory lies under it. -/
theorem underDir_append (d x : String) : underDir d (d ++ "/" ++ x) = true := by
  unfold underDir
  rw [List.isPrefixOf_iff_prefix, String.data_append]
  exact List.prefix_append _ _

/-- Recover the relative path below a directory. -/
theorem strDrop_append (d x : String) :
    strDrop (d ++ "/" ++ x) (d.length + 1) = x := by
  unfold strDrop
  have hlen : (d ++ "/").data.length = d.length + 1 := by
    rw [String.data_append, List.length_append]
    rfl
  rw [String.data_append, ← hlen, List.drop_left]

/-- The file-system state after rmtree, copytree and the
`local.properties` unlink, at a path under the target. -/
theorem copyChain_under (template fs : FS) (target k : String)
    (h : underDir target k = true) :
    copyNoLocal (copyTree template (copyRm fs target) target) target k =
      (if k = target ++ "/" ++ "local.properties" then none
       else template (strDrop k (target.length + 1))) := by
  unfold copyNoLocal copyTree copyRm
  by_cases hl : k = target ++ "/" ++ "local.properties"
  · rw [if_pos hl, if_pos hl]
  · rw [if_neg hl, if_neg hl, if_pos h]

/-- The same state at a path outside the target is the original one. -/
theorem copyChain_outside (template fs : FS) (target k : String)
    (h : underDir target k = false) :
    copyNoLocal (copyTree template (copyRm fs target) target) target k =
      fs k := by
  have hne : k ≠ target ++ "/" ++ "local.properties" := by
    intro he
    rw [he, underDir_append] at h
    cases h
  unfold copyNoLocal copyTree copyRm
  simp [hne, h]

/-- The settings file below the target after the first three steps of
`_copy_template` holds the template's settings file, whatever the prior
file system held. -/
theorem copyChain_settings (template fs : FS) (target : String) :
    copyNoLocal (copyTree template (copyRm fs target) target) target
      (target ++ "/" ++ "settings.gradle.kts") =
      template "settings.gradle.kts" := by
  rw [copyChain_under template fs target _ (underDir_append target _)]
  rw [if_neg]
  · rw [strDrop_append]
  · intro he
    have h3 := str_append_left_cancel he
    exact absurd h3 (by decide)

/-- Under the target, the result of `_copy_template` does not depend on
the prior file system. -/
theorem copy_template_under (template fs : FS) (name k : String)
    (hk : underDir (targetDirOf name) k = true) :
    copy_template_fs template fs name k =
      copy_template_fs template (fun _ => none) name k := by
  unfold copy_template_fs
  rw [copyChain_settings template fs (targetDirOf name),
      copyChain_settings template (fun _ => none) (targetDirOf name)]
  rcases hT : template "settings.gradle.kts" with _ | text
  · show copyNoLocal (copyTree template (copyRm fs (targetDirOf name))
        (targetDirOf name)) (targetDirOf name) k =
      copyNoLocal (copyTree template (copyRm (fun _ => none)
        (targetDirOf name)) (targetDirOf name)) (targetDirOf name) k
    exact (copyChain_under template fs _ k hk).trans
      (copyChain_under template (fun _ => none) _ k hk).symm
  · show fsWrite (copyNoLocal (copyTree template (copyRm fs
        (targetDirOf name)) (targetDirOf name)) (targetDirOf name))
        (targetDirOf name ++ "/" ++ "settings.gradle.kts")
        (replaceAll text oldRootLine (newRootLine name)) k =
      fsWrite (copyNoLocal (copyTree template (copyRm (fun _ => none)
        (targetDirOf name)) (targetDirOf name)) (targetDirOf name))
        (targetDirOf name ++ "/" ++ "settings.gradle.kts")
        (replaceAll text oldRootLine (newRootLine name)) k
    unfold fsWrite
    by_cases hks : k = targetDirOf name ++ "/" ++ "settings.gradle.kts"
    · rw [if_pos hks, if_pos hks]
    · rw [if_neg hks, if_neg hks]
      exact (copyChain_under template fs _ k hk).trans
        (copyChain_under template (fun _ => none) _ k hk).symm

/-- Outside the target, `_copy_template` leaves the file system alone. -/
theorem copy_template_outside (template fs : FS) (name k : String)
    (hk : underDir (targetDirOf name) k = false) :
    copy_template_fs template fs name k = fs k := by
  unfold copy_template_fs
  rw [copyChain_settings template fs (targetDirOf name)]
  have hks : k ≠ targetDirOf name ++ "/" ++ "settings.gradle.kts" := by
    intro he
    rw [he, underDir_append] at hk
    cases hk
  rcases hT : template "settings.gradle.kts" with _ | text
  · exact copyChain_outside template fs _ k hk
  · show fsWrite (copyNoLocal (copyTree template (copyRm fs
        (targetDirOf name)) (targetDirOf name)) (targetDirOf name))
        (targetDirOf name ++ "/" ++ "settings.gradle.kts")
        (replaceAll text oldRootLine (newRootLine name)) k = fs k
    unfold fsWrite
    rw [if_neg hks]
    exact copyChain_outside template fs _ k hk

/-! ## C8: the materialize stage is destructive and idempotent per name -/

/-- C8: below the per-name target directory the result of
`_copy_template` is independent of whatever was there before (old stray
files are gone; the directory is a fresh copy of the template), and
re-running `_copy_template` with the same resolved name changes nothing
anywhere. -/
theorem copy_template_idempotent (template fs1 fs2 : FS) (name k j : String)
    (hk : underDir (targetDirOf name) k = true) :
    copy_template_fs template fs1 name k =
      copy_template_fs template fs2 name k ∧
    copy_template_fs template (copy_template_fs template fs1 name) name j =
      copy_template_fs template fs1 name j := by
  constructor
  · rw [copy_template_under template fs1 name k hk,
        copy_template_under template fs2 name k hk]
  · by_cases hj : underDir (targetDirOf name) j = true
    · rw [copy_template_under template _ name j hj,
          copy_template_under template fs1 name j hj]
    · have hj' : underDir (targetDirOf name) j = false := by
        simpa using hj
      rw [copy_template_outside template _ name j hj']

/-- C8 (witness): a stray file from a previous run below the target is
erased by re-running `_copy_template` with the same name, and the second
run is a no-op at the settings path. -/
theorem copy_template_idempotent_witness :
    underDir (targetDirOf "App") "output_projects/App/stray.txt" = true ∧
    copy_template_fs
      (fun r => if r = "settings.gradle.kts" then some oldRootLine else none)
      (fun k => if k = "output_projects/App/stray.txt" then some "junk"
        else none) "App" "output_projects/App/stray.txt" = none ∧
    copy_template_fs
      (fun r => if r = "settings.gradle.kts" then some oldRootLine else none)
      (copy_template_fs
        (fun r => if r = "settings.gradle.kts" then some oldRootLine
          else none)
        (fun k => if k = "output_projects/App/stray.txt" then some "junk"
          else none) "App") "App" "output_projects/App/settings.gradle.kts" =
      copy_template_fs
        (fun r => if r = "settings.gradle.kts" then some oldRootLine
          else none)
        (fun k => if k = "output_projects/App/stray.txt" then some "junk"
          else none) "App" "output_projects/App/settings.gradle.kts" := by
  refine ⟨rfl, ?_, ?_⟩
  · exact (copy_template_idempotent
      (fun r => if r = "settings.gradle.kts" then some oldRootLine else none)
      (fun k => if k = "output_projects/App/stray.txt" then some "junk"
        else none) (fun _ => none) "App" "output_projects/App/stray.txt"
      "output_projects/App/stray.txt" rfl).1.trans rfl
  · exact (copy_template_idempotent
      (fun r => if r = "settings.gradle.kts" then some oldRootLine else none)
      (fun k => if k = "output_projects/App/stray.txt" then some "junk"
        else none) (fun _ => none) "App" "output_projects/App/stray.txt"
      "output_projects/App/settings.gradle.kts" rfl).2

/-! ## Pipeline run lemmas -/

/-- Under `StrOk`, every stage body succeeds and acts as `applyStage`. -/
theorem stepStage_ok (template : FS) (rs : Responses) (hok : StrOk rs)
    (stg : Stage) (p : PipeState) :
    stepStage template rs stg p = .ok (applyStage template rs stg p) := by
  obtain ⟨h1, h2, h3, h4⟩ := hok
  cases stg
  case nameSel => rfl
  case copyTpl => rfl
  case plan => rfl
  case mainA =>
    unfold applyStage
    simp only [stepStage]
    rw [fileStageStep_eq_ok _ _ _ _ _ _ _ _ h1]
  case layout =>
    unfold applyStage
    simp only [stepStage]
    rw [fileStageStep_eq_ok _ _ _ _ _ _ _ _ h2]
  case manifest =>
    unfold applyStage
    simp only [stepStage]
    rw [fileStageStep_eq_ok _ _ _ _ _ _ _ _ h3]
  case gradle =>
    unfold applyStage
    simp only [stepStage]
    rw [fileStageStep_eq_ok _ _ _ _ _ _ _ _ h4]

/-- If the cancellation predicate first turns true at poll `i`, the gated
loop runs exactly the first `i` stages and then raises the cancellation
error. -/
theorem runStages_cancelled (template : FS) (rs : Responses)
    (stop : Nat → Bool) (hok : StrOk rs) :
    ∀ (l : List Stage) (n : Nat) (p : PipeState) (i : Nat), i < l.length →
      (∀ m, m < i → stop (n + m) = false) → stop (n + i) = true →
      runStages template rs stop l n p =
        (.error cancelMsg, applyStages template rs (l.take i) p) := by
  intro l
  induction l with
  | nil =>
    intro n p i hi _ _
    exact absurd hi (by simp)
  | cons stg rest ih =>
    intro n p i hi hb hs
    cases i with
    | zero =>
      have h0 : stop n = true := by simpa using hs
      unfold runStages
      rw [if_pos h0]
      rfl
    | succ j =>
      have h0 : ¬(stop n = true) := by
        have := hb 0 (by omega)
        simp only [Nat.add_zero] at this
        simp [this]
      unfold runStages
      rw [if_neg h0, stepStage_ok template rs hok stg p]
      show runStages template rs stop rest (n + 1)
          (applyStage template rs stg p) =
        (.error cancelMsg,
         applyStages template rs ((stg :: rest).take (j + 1)) p)
      rw [ih (n + 1) (applyStage template rs stg p) j
        (by simpa using Nat.lt_of_succ_lt_succ (by simpa using hi))
        (fun m hm => by
          have hbm := hb (m + 1) (by omega)
          rw [show n + 1 + m = n + (m + 1) by omega]
          exact hbm)
        (by
          rw [show n + 1 + j = n + (j + 1) by omega]
          exact hs)]
      rfl

/-- If the cancellation predicate stays false for all polls, the gated
loop runs every stage. -/
theorem runStages_ok (template : FS) (rs : Responses)
    (stop : Nat → Bool) (hok : StrOk rs) :
    ∀ (l : List Stage) (n : Nat) (p : PipeState),
      (∀ m, m < l.length → stop (n + m) = false) →
      runStages template rs stop l n p =
        (.ok (), applyStages template rs l p) := by
  intro l
  induction l with
  | nil => intro n p _; rfl
  | cons stg rest ih =>
    intro n p hb
    have h0 : ¬(stop n = true) := by
      have := hb 0 (by simp)
      simp only [Nat.add_zero] at this
      simp [this]
    unfold runStages
    rw [if_neg h0, stepStage_ok template rs hok stg p]
    show runStages template rs stop rest (n + 1)
        (applyStage template rs stg p) =
      (.ok (), applyStages template rs (stg :: rest) p)
    rw [ih (n + 1) (applyStage template rs stg p)
      (fun m hm => by
        have hbm := hb (m + 1) (by simp; omega)
        rw [show n + 1 + m = n + (m + 1) by omega]
        exact hbm)]
    rfl

/-- Each successfully applied stage appends itself to the invocation
trace. -/
theorem applyStage_invoked (template : FS) (rs : Responses) (hok : StrOk rs)
    (stg : Stage) (p : PipeState) :
    (applyStage template rs stg p).invoked = p.invoked ++ [stg] := by
  obtain ⟨h1, h2, h3, h4⟩ := hok
  cases stg
  case nameSel => rfl
  case copyTpl => rfl
  case plan => rfl
  case mainA =>
    unfold applyStage
    simp only [stepStage]
    rw [fileStageStep_eq_ok _ _ _ _ _ _ _ _ h1]
  case layout =>
    unfold applyStage
    simp only [stepStage]
    rw [fileStageStep_eq_ok _ _ _ _ _ _ _ _ h2]
  case manifest =>
    unfold applyStage
    simp only [stepStage]
    rw [fileStageStep_eq_ok _ _ _ _ _ _ _ _ h3]
  case gradle =>
    unfold applyStage
    simp only [stepStage]
    rw [fileStageStep_eq_ok _ _ _ _ _ _ _ _ h4]

/-- A successfully applied stage list appends itself to the invocation
trace in order. -/
theorem applyStages_invoked (template : FS) (rs : Responses)
    (hok : StrOk rs) :
    ∀ (l : List Stage) (p : PipeState),
      (applyStages template rs l p).invoked = p.invoked ++ l := by
  intro l
  induction l with
  | nil => intro p; simp [applyStages]
  | cons stg rest ih =>
    intro p
    show (applyStages template rs rest (applyStage template rs stg p)).invoked
      = p.invoked ++ (stg :: rest)
    rw [ih (applyStage template rs stg p),
        applyStage_invoked template rs hok stg p]
    simp

/-! ## C6: the cancellation gate -/

/-- C6: if the cancellation predicate is false at the polls before stage
`i` (0-based, stages name-selection through build-configuration) and true
at poll `i`, the run raises the cancellation error, exactly the first `i`
stages have run — with all their file effects — and stage `i` and all
later stages are never invoked. -/
theorem cancellation_gate (template : FS) (rs : Responses)
    (stop : Nat → Bool) (fs0 : FS) (idea : String) (i : Nat)
    (hi : i ≤ 6) (hok : StrOk rs)
    (hb : ∀ m, m < i → stop m = false) (hs : stop i = true) :
    run template rs stop fs0 idea =
      (.error cancelMsg,
       applyStages template rs (stageList.take i) (initPipe fs0 idea)) ∧
    (applyStages template rs (stageList.take i) (initPipe fs0 idea)).invoked
      = stageList.take i := by
  constructor
  · unfold run
    rw [runStages_cancelled template rs stop hok stageList 0
      (initPipe fs0 idea) i (by simp [stageList]; omega)
      (fun m hm => by simpa using hb m hm) (by simpa using hs)]
  · rw [applyStages_invoked template rs hok (stageList.take i)
      (initPipe fs0 idea)]
    rfl

/-- C6 (witness): with plain-text responses and cancellation first
signalled at poll 2, the run is cancelled having invoked exactly the name
and materialize stages. -/
theorem cancellation_gate_witness :
    run (fun _ => none) ⟨"n", "a", "m", "l", "f", "g"⟩
      (fun n => decide (2 ≤ n)) (fun _ => none) "idea" =
      (.error cancelMsg,
       applyStages (fun _ => none) ⟨"n", "a", "m", "l", "f", "g"⟩
         (stageList.take 2) (initPipe (fun _ => none) "idea")) ∧
    (applyStages (fun _ => none) ⟨"n", "a", "m", "l", "f", "g"⟩
      (stageList.take 2) (initPipe (fun _ => none) "idea")).invoked =
      stageList.take 2 :=
  cancellation_gate (fun _ => none) ⟨"n", "a", "m", "l", "f", "g"⟩
    (fun n => decide (2 ≤ n)) (fun _ => none) "idea" 2 (by omega)
    ⟨rfl, rfl, rfl, rfl⟩ (by decide) (by decide)

/-! ## Prompt containment lemmas -/

/-- Appending the empty string is the identity. -/
theorem str_append_empty (s : String) : s ++ "" = s := by
  apply String.ext
  rw [String.data_append]
  simp

/-- A successful extraction-and-write on a string content. -/
theorem write_ok (fs : FS) (path r c : String)
    (h : (extract r).content = .str c) :
    write_from_response fs path r = .ok (fsWrite fs path c, c) := by
  unfold write_from_response writeText
  rw [h]

/-- The assembled prompt contains every substring of the nonempty
accumulated context. -/
theorem strContains_llm_prompt (ins ex extra C : String)
    (hextra : extra ≠ "") (hsub : strContains extra C) :
    strContains (llm_prompt ins ex extra) C := by
  obtain ⟨a, b, hab⟩ := hsub
  unfold llm_prompt strContains
  by_cases he : ex ≠ ""
  · rw [if_pos he, if_pos hextra, hab]
    exact ⟨ins ++ "\n\nContext:\n" ++ a,
           b ++ "\n\nExisting file content:\n" ++ ex,
           by simp [String.append_assoc]⟩
  · rw [if_neg he, if_pos hextra, hab]
    exact ⟨ins ++ "\n\nContext:\n" ++ a, b,
           by simp [String.append_assoc]⟩

/-! ## C1: chained stage contexts -/

set_option maxHeartbeats 2000000 in
/-- C1: in a run with no cancellation, the layout stage's prompt contains
exactly the content the logic (MainActivity) stage wrote — the unique
`mainA` write is `(target/MainActivity.kt, contentStr mainResp)` and the
unique layout prompt contains that same string; the manifest prompt
contains both the logic and the layout content; the build-configuration
prompt contains the logic content. -/
theorem chained_context (template : FS) (rs : Responses) (stop : Nat → Bool)
    (fs0 : FS) (idea : String)
    (hstop : ∀ m, m < 7 → stop m = false) (hok : StrOk rs) :
    ∃ PL PM PG,
      promptsFor (run template rs stop fs0 idea).2 .layout = [PL] ∧
      promptsFor (run template rs stop fs0 idea).2 .manifest = [PM] ∧
      promptsFor (run template rs stop fs0 idea).2 .gradle = [PG] ∧
      writesFor (run template rs stop fs0 idea).2 .mainA =
        [(targetDirOf (ask_app_name rs.nameResp) ++ "/" ++ mainRel,
          contentStr rs.mainResp)] ∧
      writesFor (run template rs stop fs0 idea).2 .layout =
        [(targetDirOf (ask_app_name rs.nameResp) ++ "/" ++ layoutRel,
          contentStr rs.layoutResp)] ∧
      strContains PL (contentStr rs.mainResp) ∧
      strContains PM (contentStr rs.mainResp) ∧
      strContains PM (contentStr rs.layoutResp) ∧
      strContains PG (contentStr rs.mainResp) := by
  have h1 := hok.1
  have h2 := hok.2.1
  have h3 := hok.2.2.1
  have h4 := hok.2.2.2
  have hw1 : ∀ (fs : FS) (path : String),
      write_from_response fs path rs.mainResp =
        .ok (fsWrite fs path (contentStr rs.mainResp),
          contentStr rs.mainResp) :=
    fun fs path => write_ok fs path _ _ h1
  have hw2 : ∀ (fs : FS) (path : String),
      write_from_response fs path rs.layoutResp =
        .ok (fsWrite fs path (contentStr rs.layoutResp),
          contentStr rs.layoutResp) :=
    fun fs path => write_ok fs path _ _ h2
  have hw3 : ∀ (fs : FS) (path : String),
      write_from_response fs path rs.manifestResp =
        .ok (fsWrite fs path (contentStr rs.manifestResp),
          contentStr rs.manifestResp) :=
    fun fs path => write_ok fs path _ _ h3
  have hw4 : ∀ (fs : FS) (path : String),
      write_from_response fs path rs.gradleResp =
        .ok (fsWrite fs path (contentStr rs.gradleResp),
          contentStr rs.gradleResp) :=
    fun fs path => write_ok fs path _ _ h4
  have hrun2 : (run template rs stop fs0 idea).2 =
      { applyStages template rs stageList (initPipe fs0 idea) with
        fs := update_strings_xml
          (applyStages template rs stageList (initPipe fs0 idea)).fs
          (applyStages template rs stageList (initPipe fs0 idea)).target_dir
          (applyStages template rs stageList
            (initPipe fs0 idea)).st.app_name } := by
    unfold run
    rw [runStages_ok template rs stop hok stageList 0 (initPipe fs0 idea)
      (fun m hm => by
        have hm7 := hstop m (by simpa [stageList] using hm)
        simpa using hm7)]
  have hp : (run template rs stop fs0 idea).2.prompts =
      (applyStages template rs stageList (initPipe fs0 idea)).prompts := by
    rw [hrun2]
  have hwr : (run template rs stop fs0 idea).2.writes =
      (applyStages template rs stageList (initPipe fs0 idea)).writes := by
    rw [hrun2]
  obtain ⟨exL, hL⟩ : ∃ ex,
      promptsFor (run template rs stop fs0 idea).2 Stage.layout =
        [llm_prompt layoutInstruction ex
          ("MainActivity.kt just generated:\n" ++ contentStr rs.mainResp)] := by
    rw [hrun2]
    simp only [applyStages, stageList, List.foldl, applyStage, stepStage,
      fileStageStep, hw1, hw2, hw3, hw4, initPipe, initAgentState,
      promptsFor, List.filterMap, List.nil_append, List.cons_append,
      List.append_nil]
    simp only [reduceCtorEq, if_false, ite_false, if_neg, Bool.false_eq_true,
      ne_eq, reduceIte]
    exact ⟨_, rfl⟩
  obtain ⟨exM, hM⟩ : ∃ ex,
      promptsFor (run template rs stop fs0 idea).2 Stage.manifest =
        [llm_prompt manifestInstruction ex
          ("MainActivity.kt:\n" ++ contentStr rs.mainResp ++
            "\n\nactivity_main.xml:\n" ++ contentStr rs.layoutResp)] := by
    rw [hrun2]
    simp only [applyStages, stageList, List.foldl, applyStage, stepStage,
      fileStageStep, hw1, hw2, hw3, hw4, initPipe, initAgentState,
      promptsFor, List.filterMap, List.nil_append, List.cons_append,
      List.append_nil]
    simp only [reduceCtorEq, if_false, ite_false, if_neg, Bool.false_eq_true,
      ne_eq, reduceIte]
    exact ⟨_, rfl⟩
  obtain ⟨exG, hG⟩ : ∃ ex,
      promptsFor (run template rs stop fs0 idea).2 Stage.gradle =
        [llm_prompt gradleInstruction ex
          ("MainActivity.kt:\n" ++ contentStr rs.mainResp)] := by
    rw [hrun2]
    simp only [applyStages, stageList, List.foldl, applyStage, stepStage,
      fileStageStep, hw1, hw2, hw3, hw4, initPipe, initAgentState,
      promptsFor, List.filterMap, List.nil_append, List.cons_append,
      List.append_nil]
    simp only [reduceCtorEq, if_false, ite_false, if_neg, Bool.false_eq_true,
      ne_eq, reduceIte]
    exact ⟨_, rfl⟩
  have hWm : writesFor (run template rs stop fs0 idea).2 Stage.mainA =
      [(targetDirOf (ask_app_name rs.nameResp) ++ "/" ++ mainRel,
        contentStr rs.mainResp)] := by
    rw [hrun2]
    simp only [applyStages, stageList, List.foldl, applyStage, stepStage,
      fileStageStep, hw1, hw2, hw3, hw4, initPipe, initAgentState,
      writesFor, List.filterMap, List.nil_append, List.cons_append,
      List.append_nil]
    simp
  have hWl : writesFor (run template rs stop fs0 idea).2 Stage.layout =
      [(targetDirOf (ask_app_name rs.nameResp) ++ "/" ++ layoutRel,
        contentStr rs.layoutResp)] := by
    rw [hrun2]
    simp only [applyStages, stageList, List.foldl, applyStage, stepStage,
      fileStageStep, hw1, hw2, hw3, hw4, initPipe, initAgentState,
      writesFor, List.filterMap, List.nil_append, List.cons_append,
      List.append_nil]
    simp
  refine ⟨_, _, _, hL, hM, hG, hWm, hWl, ?_, ?_, ?_, ?_⟩
  · exact strContains_llm_prompt _ _ _ _
      (append_ne_empty_left _ _ (by decide))
      ⟨"MainActivity.kt just generated:\n", "",
        by simp [str_append_empty]⟩
  · exact strContains_llm_prompt _ _ _ _
      (append_ne_empty_left _ _
        (append_ne_empty_left _ _ (append_ne_empty_left _ _ (by decide))))
      ⟨"MainActivity.kt:\n",
        "\n\nactivity_main.xml:\n" ++ contentStr rs.layoutResp,
        by simp [String.append_assoc]⟩
  · exact strContains_llm_prompt _ _ _ _
      (append_ne_empty_left _ _
        (append_ne_empty_left _ _ (append_ne_empty_left _ _ (by decide))))
      ⟨("MainActivity.kt:\n" ++ contentStr rs.mainResp) ++
        "\n\nactivity_main.xml:\n", "",
        by simp [str_append_empty, String.append_assoc]⟩
  · exact strContains_llm_prompt _ _ _ _
      (append_ne_empty_left _ _ (by decide))
      ⟨"MainActivity.kt:\n", "", by simp [str_append_empty]⟩

/-- C1 (witness): a concrete uncancelled run writes the extracted logic
and layout contents to their fixed stage paths, as recorded in the write
trace. -/
theorem chained_context_witness :
    writesFor (run (fun _ => none) ⟨"n", "a", "m", "l", "f", "g"⟩
        (fun _ => false) (fun _ => none) "i").2 Stage.mainA =
      [(targetDirOf (ask_app_name "n") ++ "/" ++ mainRel, contentStr "m")] ∧
    writesFor (run (fun _ => none) ⟨"n", "a", "m", "l", "f", "g"⟩
        (fun _ => false) (fun _ => none) "i").2 Stage.layout =
      [(targetDirOf (ask_app_name "n") ++ "/" ++ layoutRel,
        contentStr "l")] := by
  obtain ⟨PL, PM, PG, hL, hM, hG, hWm, hWl, hcL, hcM1, hcM2, hcG⟩ :=
    chained_context (fun _ => none) ⟨"n", "a", "m", "l", "f", "g"⟩
      (fun _ => false) (fun _ => none) "i" (fun m _ => rfl)
      ⟨rfl, rfl, rfl, rfl⟩
  exact ⟨hWm, hWl⟩

end SimpleAgent
